import Mathlib

/-!
Verification development for the SimpleMonitor network monitors
(`Monitors/network.py`): a shallow embedding of the four probe classes
`MonitorHTTP`, `MonitorTCP`, `MonitorHost` and `MonitorDNS`, together with
theorems about construction, `run_test`, and `get_params`.

Modelling conventions:
* Python semantics are those of Python 3 (the module converts subprocess
  bytes with `str(...)` / `.decode("utf-8")`, which behave as in Python 3).
* The configuration dict `config_options` is an association list from key
  strings to value strings (`PyConfig`).
* The base class `Monitor` (file `Monitors/monitor.py`, outside the core) is
  the Result Recorder: calls to `record_success` / `record_fail` are modelled
  as emitted `RecordEvent`s, and `Monitor.__init__` as a no-op.
* External I/O (the HTTP GET, the TCP connect, the two subprocess
  invocations) is modelled by passing the outcome of the call as an explicit
  argument to the embedded `run_test`; a Python exception is an `Except`
  error carrying the exception text.
* Machine-level details that no theorem depends on (the exact text of a
  Python `ValueError`, `%0.2f` double rounding) are modelled by executable
  approximations noted at their definitions.
-/

/-- Association-list model of the Python dict `config_options`. -/
abbrev PyConfig := List (String × String)

/-- Key lookup; the first binding wins (Python dict keys are unique). -/
def PyConfig.find? (cfg : PyConfig) (k : String) : Option String :=
  match cfg with
  | [] => none
  | (k2, v) :: rest => if k2 == k then some v else PyConfig.find? rest k

/-- Characters removed by Python `str.strip()` with no argument
(ASCII whitespace; the module only strips command output). -/
def pySpace (c : Char) : Bool :=
  c == ' ' || c == '\t' || c == '\n' || c == '\r' || c == '\x0b' || c == '\x0c'

/-- Python `s.strip()`. -/
def pyStrip (s : String) : String :=
  String.mk (((s.data.dropWhile pySpace).reverse.dropWhile pySpace).reverse)

/-- Python `s.lower()` on ASCII data. -/
def pyLower (s : String) : String :=
  String.mk (s.data.map Char.toLower)

/-- Numeric value of a digit run. -/
def digitsToInt (l : List Char) : Int :=
  l.foldl (fun a c => a * 10 + (Int.ofNat (c.toNat - 48))) 0

/-- Python `int(s)`: strips whitespace, accepts an optional sign followed by
one or more digits; `none` models the `ValueError` raised otherwise. -/
def pyInt? (s : String) : Option Int :=
  match (pyStrip s).data with
  | [] => none
  | '+' :: ds =>
    if ds.isEmpty then none
    else if ds.all Char.isDigit then some (digitsToInt ds) else none
  | '-' :: ds =>
    if ds.isEmpty then none
    else if ds.all Char.isDigit then some (-(digitsToInt ds)) else none
  | ds => if ds.all Char.isDigit then some (digitsToInt ds) else none

/-- Python string repetition `s * n`. -/
def pyStrMul (s : String) (n : Nat) : String :=
  String.mk (List.flatten (List.replicate n s.data))

/-- Python `str(i)` for an int (Lean's `Int` printing matches it). -/
def pyIntStr (i : Int) : String := toString i

/-- Python `str(l)` for a list of ints, as used by `str.format`. -/
def pyIntListRepr (l : List Int) : String :=
  "[" ++ String.intercalate ", " (l.map pyIntStr) ++ "]"

/-- Bool test that `pat` begins the list `l`. -/
def beginsWith : List Char → List Char → Bool
  | [], _ => true
  | _ :: _, [] => false
  | a :: as, b :: bs => a == b && beginsWith as bs

/-- Bool test that `pat` occurs contiguously inside `l`; this is the
semantics of `re.search` for the literal patterns of the module. -/
def strHas (pat : List Char) : List Char → Bool
  | [] => beginsWith pat []
  | c :: rest => beginsWith pat (c :: rest) || strHas pat rest

/-- String-level wrapper of `strHas`. -/
def strHasS (pat s : String) : Bool := strHas pat.data s.data

/-- Python `s.split("\n")` (single-character separator, empties kept). -/
def splitNl : List Char → List (List Char)
  | [] => [[]]
  | c :: rest =>
    if c == '\n' then [] :: splitNl rest
    else
      match splitNl rest with
      | [] => [[c]]
      | l :: ls => (c :: l) :: ls

/-- Call to the Result Recorder: `record_success` / `record_fail`, with the
optional message argument. -/
inductive RecordEvent where
  | success (msg : Option String)
  | fail (msg : Option String)
deriving DecidableEq, Repr

/-- Equality of `Except` values is decidable componentwise; needed so that
concrete `TestStep` results can be checked by `decide`. -/
instance {e a : Type} [DecidableEq e] [DecidableEq a] :
    DecidableEq (Except e a) := fun x y =>
  match x, y with
  | .ok u, .ok v => if h : u = v then .isTrue (by rw [h]) else .isFalse (by simp [h])
  | .error u, .error v => if h : u = v then .isTrue (by rw [h]) else .isFalse (by simp [h])
  | .ok _, .error _ => .isFalse (by simp)
  | .error _, .ok _ => .isFalse (by simp)

/-- Observable behaviour of one `run_test()` call: the Result Recorder calls
it makes, and either the returned bool or an uncaught Python exception. -/
structure TestStep where
  events : List RecordEvent
  outcome : Except String Bool
deriving DecidableEq, Repr

/-- Bool test that an outcome is a normal return, not an uncaught
exception. -/
def isOkB : Except String Bool → Bool
  | .ok _ => true
  | .error _ => false

/-! ## MonitorTCP -/

/-- State of a constructed `MonitorTCP` (class `MonitorTCP` fields). -/
structure MonitorTCP where
  name : String
  host : String
  port : Int
deriving DecidableEq, Repr

/-- Embedding of `MonitorTCP.__init__`: `host` and `port` are read inside a
`try` whose bare `except` turns `KeyError` / `ValueError` into
`RuntimeError("Required configuration fields missing")`; then the empty-host
and nonpositive-port checks run (`port == ""` is always false for an int, so
only `port <= 0` is effective). -/
def tcpInit (name : String) (cfg : PyConfig) : Except String MonitorTCP :=
  match cfg.find? "host" with
  | none => .error "Required configuration fields missing"
  | some host =>
    match (cfg.find? "port").bind pyInt? with
    | none => .error "Required configuration fields missing"
    | some port =>
      if host = "" then .error "missing hostname"
      else if port ≤ 0 then .error "missing or invalid port number"
      else .ok ⟨name, host, port⟩

/-- Embedding of `MonitorTCP.run_test`: the `connect` outcome is passed in;
its bare `except` records a bare failure, success records a bare success. -/
def tcpRunTest (_p : MonitorTCP) (connected : Bool) : TestStep :=
  if connected then ⟨[.success none], .ok true⟩
  else ⟨[.fail none], .ok false⟩

/-- Embedding of `MonitorTCP.get_params`. -/
def MonitorTCP.get_params (p : MonitorTCP) : String × Int := (p.host, p.port)

/-! ## MonitorDNS -/

/-- State of a constructed `MonitorDNS`. -/
structure MonitorDNS where
  name : String
  path : String
  desired_val : Option String
  server : Option String
  rectype : Option String
  params : List String
deriving DecidableEq, Repr

/-- Embedding of `MonitorDNS.__init__`: `record` is required and must be
non-empty; `desired_val`, `server`, `record_type` are stored when present;
the command line gets `@server` only when `server` is truthy, and
`-t record_type` whenever the key is present. -/
def dnsInit (name : String) (cfg : PyConfig) : Except String MonitorDNS :=
  match cfg.find? "record" with
  | none => .error "Required configuration fields missing"
  | some path =>
    if path = "" then .error "Required configuration fields missing"
    else
      .ok ⟨name, path, cfg.find? "desired_val", cfg.find? "server",
        cfg.find? "record_type",
        ["dig"]
          ++ (match cfg.find? "server" with
              | some s => if s = "" then [] else ["@" ++ s]
              | none => [])
          ++ (match cfg.find? "record_type" with
              | some t => ["-t", t]
              | none => [])
          ++ [path, "+short"]⟩

/-- Embedding of `MonitorDNS.run_test`: the subprocess outcome (decoded
output text, or the exception text of `check_output` / `.decode`) is passed
in. The output is stripped; an empty result fails naming the record; a truthy
`desired_val` differing from the result fails naming both; otherwise a bare
success. Every exception is caught by the `except` clause. -/
def dnsRunTest (p : MonitorDNS) (sub : Except String String) : TestStep :=
  match sub with
  | .error e => ⟨[.fail (some ("Exception while executing dig: " ++ e))], .ok false⟩
  | .ok raw =>
    if pyStrip raw = "" then
      ⟨[.fail (some ("failed to resolve " ++ p.path))], .ok false⟩
    else
      match p.desired_val with
      | some d =>
        if d = "" then ⟨[.success none], .ok true⟩
        else if pyStrip raw = d then ⟨[.success none], .ok true⟩
        else
          ⟨[.fail (some ("resolved DNS record is unexpected: " ++ d ++ " != " ++ pyStrip raw))],
            .ok false⟩
      | none => ⟨[.success none], .ok true⟩

/-- Embedding of `MonitorDNS.get_params` (the identity tuple is `(path,)`
only). -/
def MonitorDNS.get_params (p : MonitorDNS) : String := p.path

/-! ## MonitorHTTP -/

/-- Model of the `requests` response fields that `run_test` reads, plus the
elapsed wall-clock time (a `datetime.timedelta`) as seconds and
microseconds. -/
structure HttpResponse where
  status : Int
  reason : String
  body : String
  load_secs : Nat
  load_micros : Nat
deriving DecidableEq, Repr

/-- Outcome of the `requests.get` call: a `RequestException`, some other
exception, or a response. -/
inductive HttpOutcome where
  | reqExn (e : String)
  | otherExn (e : String)
  | resp (r : HttpResponse)
deriving DecidableEq, Repr

/-- Python `"%0.2f" % (secs + micros / 1000000.2)`, computed in exact
rational arithmetic. The divisor 1000000.2 is the source's literal. Because
the denominator 5000001 is odd, no exact tie arises, so nearest-rounding
here agrees with the float formatting except in cases separated only by the
double's representation error; no theorem depends on these digits. -/
def pyFloat2 (secs micros : Nat) : String :=
  let N := (secs * 5000001 + 5 * micros) * 100
  let D := 5000001
  let q := N / D
  let n := if D < 2 * (N % D) then q + 1 else q
  toString (n / 100) ++ "." ++ toString (n % 100 / 10) ++ toString (n % 10)

/-- Message of `record_fail` when the status code is not allowed:
`"Got status '{0} {1}' instead of {2}".format(status, reason, allowed)`. -/
def httpStatusFailMsg (status : Int) (reason : String) (allowed : List Int) : String :=
  "Got status '" ++ pyIntStr status ++ " " ++ reason ++ "' instead of "
    ++ pyIntListRepr allowed

/-- Message of `record_success`: `"%s in %0.2fs" % (status, load)`. -/
def httpOkMsg (status : Int) (secs micros : Nat) : String :=
  pyIntStr status ++ " in " ++ pyFloat2 secs micros ++ "s"

/-- Message of `record_fail` when the body regex does not match:
`"Got '{0} {1}' but couldn't match /{2}/ in page."`. -/
def httpRegexFailMsg (status : Int) (reason : String) (rx : String) : String :=
  "Got '" ++ pyIntStr status ++ " " ++ reason ++ "' but couldn't match /"
    ++ rx ++ "/ in page."

/-- State of a constructed `MonitorHTTP`. `regexpC` models the compiled
`self.regexp` (`none` when no regex was configured) by its pattern text. -/
structure MonitorHTTP where
  name : String
  url : String
  regexpC : Option String
  regexp_text : String
  allowed_codes : List Int
  certfile : Option String
  keyfile : Option String
  verify_hostname : Bool
  request_timeout : Int
  username : Option String
  password : Option String
deriving DecidableEq, Repr

/-- The `self.regexp` / `regexp_text` pair: compiled only when the
configured pattern is non-empty. -/
def httpRegexpOf (cfg : PyConfig) : Option String :=
  match (cfg.find? "regexp").getD "" with
  | "" => none
  | rx => some rx

/-- Parse of `allowed_codes`: comma-split, `int(x.strip())` on each piece;
`none` in `pyInt?` models the uncaught `ValueError`. -/
def intsFromCsv : List String → Except String (List Int)
  | [] => .ok []
  | x :: xs =>
    match pyInt? (pyStrip x) with
    | none => .error ("invalid literal for int() with base 10: " ++ pyStrip x)
    | some v => (intsFromCsv xs).map (fun l => v :: l)

/-- Python `s.split(",")` as a list of strings. -/
def pySplitComma (s : String) : List String :=
  s.splitOn ","

/-- The `allowed_codes` field: default `[200]`, else the parsed CSV. -/
def parseAllowed (cfg : PyConfig) : Except String (List Int) :=
  match cfg.find? "allowed_codes" with
  | none => .ok [200]
  | some s => intsFromCsv (pySplitComma s)

/-- The `certfile` / `keyfile` pair: when `certfile` is present, `keyfile`
defaults to it. -/
def httpKeyPair (cfg : PyConfig) : Option String × Option String :=
  match cfg.find? "certfile" with
  | none => (none, none)
  | some c => (some c, some ((cfg.find? "keyfile").getD c))

/-- The `verify_hostname` flag: disabled only by the case-insensitive
string `"false"`. -/
def httpVerify (cfg : PyConfig) : Bool :=
  match cfg.find? "verify_hostname" with
  | none => true
  | some s => !(pyLower s == "false")

/-- The `request_timeout` field: `int(config_options.get('timeout'))` when
present (an unparsable value raises out of the constructor), else 5. -/
def httpTimeout (cfg : PyConfig) : Except String Int :=
  match cfg.find? "timeout" with
  | none => .ok 5
  | some s =>
    match pyInt? s with
    | none => .error ("invalid literal for int() with base 10: " ++ s)
    | some v => .ok v

/-- Embedding of `MonitorHTTP.__init__`. The `url` lookup runs first inside
a `try` whose bare `except` raises
`RuntimeError("Required configuration fields missing")`; the other options
are parsed afterwards. There is no emptiness check on `url`. -/
def httpInit (name : String) (cfg : PyConfig) : Except String MonitorHTTP :=
  match cfg.find? "url" with
  | none => .error "Required configuration fields missing"
  | some url =>
    match parseAllowed cfg with
    | .error e => .error e
    | .ok allowed =>
      match httpTimeout cfg with
      | .error e => .error e
      | .ok tmo =>
        .ok
          { name := name
            url := url
            regexpC := httpRegexpOf cfg
            regexp_text := (cfg.find? "regexp").getD ""
            allowed_codes := allowed
            certfile := (httpKeyPair cfg).1
            keyfile := (httpKeyPair cfg).2
            verify_hostname := httpVerify cfg
            request_timeout := tmo
            username := cfg.find? "username"
            password := cfg.find? "password" }

/-- Embedding of `MonitorHTTP.run_test`. The GET outcome is passed in;
`search pat body` models `re.search` of the user-configured compiled pattern
on `r.text` (the pattern is configuration data, so the regex engine is a
parameter). The entire body sits in one `try` with handlers for
`RequestException` and `Exception`, so no exception escapes. -/
def httpRunTest (search : String → String → Bool) (p : MonitorHTTP)
    (o : HttpOutcome) : TestStep :=
  match o with
  | .reqExn e =>
    ⟨[.fail (some ("Requests exception while opening URL: " ++ e))], .ok false⟩
  | .otherExn e =>
    ⟨[.fail (some ("Exception while trying to open url: " ++ e))], .ok false⟩
  | .resp r =>
    if !(p.allowed_codes.contains r.status) then
      ⟨[.fail (some (httpStatusFailMsg r.status r.reason p.allowed_codes))], .ok false⟩
    else
      match p.regexpC with
      | none =>
        ⟨[.success (some (httpOkMsg r.status r.load_secs r.load_micros))], .ok true⟩
      | some pat =>
        if search pat r.body then
          ⟨[.success (some (httpOkMsg r.status r.load_secs r.load_micros))], .ok true⟩
        else
          ⟨[.fail (some (httpRegexFailMsg r.status r.reason p.regexp_text))], .ok false⟩

/-- Embedding of `MonitorHTTP.get_params`. -/
def MonitorHTTP.get_params (p : MonitorHTTP) : String × String × List Int :=
  (p.url, p.regexp_text, p.allowed_codes)

/-! ## MonitorHost -/

/-- State of a constructed `MonitorHost`. The regex fields hold the pattern
text stored by the constructor (`re.compile` caches them; the class defaults
are the empty string). -/
structure MonitorHost where
  name : String
  host : String
  ping_command : String
  ping_regexp : String
  time_regexp : String
deriving DecidableEq, Repr

/-- The POSIX round-trip-time pattern of the source (BSD/Darwin and Linux
branches share it). -/
def posixTimePat : String := "min/avg/max/stddev = [\\d.]+/(?P<ms>[\\d.]+)/"

/-- The Windows round-trip-time pattern of the source. -/
def winTimePat : String := "Average = (?P<ms>\\d+)ms"

/-- Platform dispatch of `MonitorHost.__init__`: command template, reply
pattern and time pattern per platform family. `ping_ms = ping_ttl * 1000` is
Python string repetition, used only on the Windows family. On an
unrecognized platform the source builds `RuntimeError(...)` but does not
raise it, so the class-attribute defaults (empty strings) remain. -/
def hostCommandFor (platform ttl : String) : String × String × String :=
  if platform == "win32" || platform == "cygwin" then
    ("ping -n 1 -w " ++ pyStrMul ttl 1000 ++ " %s", "Reply from ", winTimePat)
  else if beginsWith "freebsd".data platform.data || beginsWith "darwin".data platform.data then
    ("ping -c1 -t" ++ ttl ++ " %s", "bytes from", posixTimePat)
  else if beginsWith "linux".data platform.data then
    ("ping -c1 -W" ++ ttl ++ " %s", "bytes from", posixTimePat)
  else
    ("", "", "")

/-- Embedding of `MonitorHost.__init__`. `ping_ttl` defaults to `"5"`; the
platform block never raises (see `hostCommandFor`), so evaluating it before
the `host` lookup is observationally faithful; `host` is required and must
be non-empty. -/
def hostInit (platform name : String) (cfg : PyConfig) : Except String MonitorHost :=
  match cfg.find? "host" with
  | none => .error "Required configuration fields missing"
  | some host =>
    if host = "" then .error "missing hostname"
    else
      .ok ⟨name, host,
        (hostCommandFor platform ((cfg.find? "ping_ttl").getD "5")).1,
        (hostCommandFor platform ((cfg.find? "ping_ttl").getD "5")).2.1,
        (hostCommandFor platform ((cfg.find? "ping_ttl").getD "5")).2.2⟩

/-- Hexadecimal digit as printed by the Python bytes repr. -/
def hexDig : Nat → Char
  | 0 => '0' | 1 => '1' | 2 => '2' | 3 => '3' | 4 => '4'
  | 5 => '5' | 6 => '6' | 7 => '7' | 8 => '8' | 9 => '9'
  | 10 => 'a' | 11 => 'b' | 12 => 'c' | 13 => 'd' | 14 => 'e'
  | 15 => 'f' | _ => '0'

/-- Escape of one byte in the Python 3 `repr` of a bytes object. -/
def escChar (c : Char) : List Char :=
  if c = '\\' then ['\\', '\\']
  else if c = '\'' then ['\\', '\'']
  else if c = '\n' then ['\\', 'n']
  else if c = '\r' then ['\\', 'r']
  else if c = '\t' then ['\\', 't']
  else if c.toNat < 32 || c.toNat > 126 then
    '\\' :: 'x' :: [hexDig (c.toNat / 16 % 16), hexDig (c.toNat % 16)]
  else [c]

/-- Python 3 `str(output)` for `output : bytes`: the repr
`b'...'` with escaped content. This is the source's conversion in
`MonitorHost.run_test`; the escaped content holds no newline character. -/
def pyReprBytes (cs : List Char) : List Char :=
  'b' :: '\'' :: (cs.foldr (fun c acc => escChar c ++ acc) ['\''])

/-- Bool test for the character class `[\d.]`. -/
def isDigitDot (c : Char) : Bool := c.isDigit || c == '.'

/-- Match of the POSIX time pattern anchored at the start of `cs`: the
literal `min/avg/max/stddev = `, a maximal non-empty `[\d.]+` run, `/`, the
captured maximal non-empty `[\d.]+` run, `/`. (Greedy matching with a
following `/` not in the class needs no backtracking, so the maximal-run
reading is exact.) -/
def posixTimeAt (cs : List Char) : Option String :=
  let lit := "min/avg/max/stddev = ".data
  if beginsWith lit cs then
    let rest := cs.drop lit.length
    let run1 := rest.takeWhile isDigitDot
    match run1, rest.drop run1.length with
    | [], _ => none
    | _, '/' :: rest2 =>
      let run2 := rest2.takeWhile isDigitDot
      match run2, rest2.drop run2.length with
      | [], _ => none
      | _, '/' :: _ => some (String.mk run2)
      | _, _ => none
    | _, _ => none
  else none

/-- Match of the Windows time pattern anchored at the start of `cs`: the
literal `Average = `, the captured maximal non-empty `\d+` run, `ms`. -/
def winTimeAt (cs : List Char) : Option String :=
  let lit := "Average = ".data
  if beginsWith lit cs then
    let rest := cs.drop lit.length
    let run1 := rest.takeWhile Char.isDigit
    match run1, rest.drop run1.length with
    | [], _ => none
    | _, rest1 => if beginsWith "ms".data rest1 then some (String.mk run1) else none
  else none

/-- `re.search` as leftmost anchored match: try `f` at every suffix, left to
right, including the empty suffix. -/
def searchFrom (f : List Char → Option String) : List Char → Option String
  | [] => f []
  | c :: rest =>
    match f (c :: rest) with
    | some r => some r
    | none => searchFrom f rest

/-- `r2.search(line)` followed by `matches.group("ms")`, for the stored
`time_regexp`. The constructor stores exactly one of: the Windows pattern,
the POSIX pattern, or `""` (unrecognized platform). For `""`, `re.search`
matches everywhere and `group("ms")` raises, modelled as an error; the
error is raised inside the `try` of `run_test`. Other pattern strings do
not occur in constructed probes and are mapped to no-match. -/
def timeSearch (pat : String) (line : List Char) : Except String (Option String) :=
  if pat == posixTimePat then .ok (searchFrom posixTimeAt line)
  else if pat == winTimePat then .ok (searchFrom winTimeAt line)
  else if pat == "" then .error "IndexError: no such group"
  else .ok none

/-- Dynamic type of the local `pingtime` of `MonitorHost.run_test`: the
float `0.0` it is initialized to, or the string returned by
`matches.group("ms")`. -/
inductive PingTime where
  | f0
  | s (ms : String)
deriving DecidableEq, Repr

/-- One iteration of the scan loop: a reply-pattern match (a literal
substring for every stored `ping_regexp`) sets `success`; otherwise the
time pattern is tried and its capture overwrites `pingtime`. -/
def hostScanLine (p : MonitorHost) (acc : Bool × PingTime) (line : List Char) :
    Except String (Bool × PingTime) :=
  if strHas p.ping_regexp.data line then .ok (true, acc.2)
  else
    match timeSearch p.time_regexp line with
    | .ok (some ms) => .ok (acc.1, .s ms)
    | .ok none => .ok acc
    | .error e => .error e

/-- The scan loop over the lines of the converted output. -/
def hostScan (p : MonitorHost) : List (List Char) → Bool × PingTime →
    Except String (Bool × PingTime)
  | [], acc => .ok acc
  | l :: ls, acc =>
    match hostScanLine p acc l with
    | .ok acc2 => hostScan p ls acc2
    | .error e => .error e

/-- Python `"%s" % arg` formatting of `self.ping_command % self.host`. Only
the `%s` specifier is modelled (the source's templates contain no other
specifier); with no specifier Python raises `TypeError: not all arguments
converted`, with more than one it raises `TypeError: not enough arguments`
— both inside the `try` of `run_test`. -/
def pyFmt : List Char → String → Bool → Except String String
  | [], _, used =>
    if used then .ok ""
    else .error "TypeError: not all arguments converted during string formatting"
  | '%' :: 's' :: rest, arg, used =>
    if used then .error "TypeError: not enough arguments for format string"
    else (pyFmt rest arg true).map (fun t => arg ++ t)
  | c :: rest, arg, used => (pyFmt rest arg used).map (fun t => String.mk [c] ++ t)

/-- Embedding of `MonitorHost.run_test`. The subprocess outcome is passed
in as the raw bytes content (`.error` for a raised exception). The `try`
covers the command formatting, the subprocess call and the scan loop; any
error there is recorded as a failure carrying the exception. After the
`try`, `if pingtime > 0` on a *string* `pingtime` is a Python 3
`TypeError`, which nothing catches — that path is modelled as an uncaught
error (and proved unreachable below). With `pingtime` still `0.0`,
`0.0 > 0` is false and a bare success is recorded. -/
def hostTryBody (p : MonitorHost) (sub : Except String String) :
    Except String (Bool × PingTime) :=
  match pyFmt p.ping_command.data p.host false with
  | .error e => .error e
  | .ok _cmd =>
    match sub with
    | .error e => .error e
    | .ok output => hostScan p (splitNl (pyReprBytes output.data)) (false, .f0)

/-- Completion of `MonitorHost.run_test` after the `try` block (see
`hostTryBody`). -/
def hostRunTest (p : MonitorHost) (sub : Except String String) : TestStep :=
  match hostTryBody p sub with
  | .error e => ⟨[.fail (some e)], .ok false⟩
  | .ok (success, pingtime) =>
    if success then
      match pingtime with
      | .f0 => ⟨[.success none], .ok true⟩
      | .s _ =>
        ⟨[], .error "TypeError: unorderable comparison of str and int"⟩
    else ⟨[.fail none], .ok false⟩

/-- Embedding of `MonitorHost.get_params` (the 1-tuple `(host,)`). -/
def MonitorHost.get_params (p : MonitorHost) : String := p.host

/-! ## The probe family -/

/-- One `run()` invocation of some constructed probe together with the
outcome of its external calls: the probe family of the module. -/
inductive ProbeRun where
  | http (p : MonitorHTTP) (search : String → String → Bool) (o : HttpOutcome)
  | tcp (p : MonitorTCP) (connected : Bool)
  | host (p : MonitorHost) (sub : Except String String)
  | dns (p : MonitorDNS) (sub : Except String String)

/-- Dispatch of `run_test` over the probe family. -/
def runProbe : ProbeRun → TestStep
  | .http p s o => httpRunTest s p o
  | .tcp p c => tcpRunTest p c
  | .host p sub => hostRunTest p sub
  | .dns p sub => dnsRunTest p sub

/-! ## Helper lemmas -/

theorem strDataAppend (a b : String) : (a ++ b).data = a.data ++ b.data := rfl

theorem beginsWith_refl_append (pat rest : List Char) :
    beginsWith pat (pat ++ rest) = true := by
  induction pat with
  | nil => rfl
  | cons a as ih => simp [beginsWith, ih]

theorem strHas_of_beginsWith {m l : List Char} (h : beginsWith m l = true) :
    strHas m l = true := by
  cases l with
  | nil => exact h
  | cons c rest => simp [strHas, h]

theorem strHas_cons {m : List Char} (c : Char) {l : List Char}
    (h : strHas m l = true) : strHas m (c :: l) = true := by
  simp [strHas, h]

theorem strHas_append (l1 m l2 : List Char) :
    strHas m (l1 ++ (m ++ l2)) = true := by
  induction l1 with
  | nil => exact strHas_of_beginsWith (beginsWith_refl_append m l2)
  | cons c cs ih => exact strHas_cons c ih

/-- Occurrence of a middle piece in a three-part concatenation, at the
`String` level. -/
theorem strHasS_middle (a m b : String) : strHasS m (a ++ m ++ b) = true := by
  unfold strHasS
  have : (a ++ m ++ b).data = a.data ++ (m.data ++ b.data) := by
    rw [strDataAppend, strDataAppend, List.append_assoc]
  rw [this]
  exact strHas_append a.data m.data b.data

theorem hexDig_ne_nl (d : Nat) : hexDig d ≠ '\n' := by
  unfold hexDig; split <;> decide

theorem nl_not_mem_escChar (c : Char) : '\n' ∉ escChar c := by
  intro h
  unfold escChar at h
  by_cases h1 : c = '\\'
  · rw [if_pos h1] at h; exact absurd h (by decide)
  · rw [if_neg h1] at h
    by_cases h2 : c = '\''
    · rw [if_pos h2] at h; exact absurd h (by decide)
    · rw [if_neg h2] at h
      by_cases h3 : c = '\n'
      · rw [if_pos h3] at h; exact absurd h (by decide)
      · rw [if_neg h3] at h
        by_cases h4 : c = '\r'
        · rw [if_pos h4] at h; exact absurd h (by decide)
        · rw [if_neg h4] at h
          by_cases h5 : c = '\t'
          · rw [if_pos h5] at h; exact absurd h (by decide)
          · rw [if_neg h5] at h
            by_cases h6 : (c.toNat < 32 || c.toNat > 126) = true
            · rw [if_pos h6] at h
              simp only [List.mem_cons, List.not_mem_nil, or_false] at h
              rcases h with h | h | h | h
              · exact absurd h (by decide)
              · exact absurd h (by decide)
              · exact (hexDig_ne_nl _) h.symm
              · exact (hexDig_ne_nl _) h.symm
            · rw [if_neg h6] at h
              simp only [List.mem_cons, List.not_mem_nil, or_false] at h
              exact h3 h.symm

theorem nl_not_mem_escFold (cs : List Char) :
    '\n' ∉ cs.foldr (fun c acc => escChar c ++ acc) ['\''] := by
  induction cs with
  | nil => decide
  | cons c rest ih =>
    intro h
    rcases List.mem_append.mp h with h | h
    · exact nl_not_mem_escChar c h
    · exact ih h

theorem splitNl_eq_single (l : List Char) (h : ∀ c ∈ l, c ≠ '\n') :
    splitNl l = [l] := by
  induction l with
  | nil => rfl
  | cons c rest ih =>
    have hc : (c == '\n') = false := by
      have := h c (List.mem_cons_self c rest)
      simp [this]
    have hr := ih (fun x hx => h x (List.mem_cons_of_mem c hx))
    simp [splitNl, hc, hr]

/-- The Python 3 `str()` of a bytes value is a single line: its `repr`
escapes every newline, so `split("\n")` returns one element. -/
theorem splitNl_pyReprBytes (cs : List Char) :
    splitNl (pyReprBytes cs) = [pyReprBytes cs] := by
  apply splitNl_eq_single
  intro c hc heq
  subst heq
  unfold pyReprBytes at hc
  simp only [List.mem_cons] at hc
  rcases hc with h | h | h
  · exact absurd h (by decide)
  · exact absurd h (by decide)
  · exact nl_not_mem_escFold cs h

/-- On the single line of the converted output, `success` can only be set
by the reply branch, which leaves `pingtime` at `0.0`. -/
theorem hostScan_single_true (p : MonitorHost) (l : List Char) (pt : PingTime)
    (h : hostScan p [l] (false, .f0) = .ok (true, pt)) : pt = .f0 := by
  unfold hostScan at h
  cases hsl : hostScanLine p (false, PingTime.f0) l with
  | error e => rw [hsl] at h; simp at h
  | ok acc2 =>
    rw [hsl] at h
    unfold hostScan at h
    have hacc : acc2 = (true, pt) := by
      simpa using h
    subst hacc
    unfold hostScanLine at hsl
    by_cases hr : strHas p.ping_regexp.data l = true
    · rw [if_pos hr] at hsl
      have : PingTime.f0 = pt := by simpa using hsl
      exact this.symm
    · rw [if_neg hr] at hsl
      cases ht : timeSearch p.time_regexp l with
      | error e => rw [ht] at hsl; simp at hsl
      | ok mo =>
        rw [ht] at hsl
        cases mo with
        | some ms => simp at hsl
        | none => simp at hsl

/-- Shape of every `MonitorHost.run_test` behaviour: exactly one Result
Recorder call and a normal return. The uncaught-`TypeError` path needs
`success` set and a string `pingtime`, which the single-line scan makes
impossible. -/
theorem hostRun_shape (p : MonitorHost) (sub : Except String String) :
    (hostRunTest p sub).events.length = 1 ∧
      isOkB (hostRunTest p sub).outcome = true := by
  unfold hostRunTest
  cases htb : hostTryBody p sub with
  | error e => simp [isOkB]
  | ok acc =>
    obtain ⟨success, pt⟩ := acc
    cases success with
    | false => simp [isOkB]
    | true =>
      have hpt : pt = .f0 := by
        unfold hostTryBody at htb
        cases hf : pyFmt p.ping_command.data p.host false with
        | error e => rw [hf] at htb; simp at htb
        | ok cmd =>
          rw [hf] at htb
          cases sub with
          | error e => simp at htb
          | ok output =>
            simp only at htb
            rw [splitNl_pyReprBytes] at htb
            exact hostScan_single_true p _ pt htb
      subst hpt
      simp [isOkB]

/-- Shared shape fact: every `run_test` of the family makes exactly one
Result Recorder call and returns normally. -/
theorem run_shape (r : ProbeRun) :
    (runProbe r).events.length = 1 ∧ isOkB (runProbe r).outcome = true := by
  cases r with
  | http p s o =>
    cases o with
    | reqExn e => exact ⟨rfl, rfl⟩
    | otherExn e => exact ⟨rfl, rfl⟩
    | resp r0 =>
      simp only [runProbe, httpRunTest]
      split
      · exact ⟨rfl, rfl⟩
      · split
        · exact ⟨rfl, rfl⟩
        · split
          · exact ⟨rfl, rfl⟩
          · exact ⟨rfl, rfl⟩
  | tcp p c => cases c <;> exact ⟨rfl, rfl⟩
  | host p sub => exact hostRun_shape p sub
  | dns p sub =>
    cases sub with
    | error e => exact ⟨rfl, rfl⟩
    | ok raw =>
      simp only [runProbe, dnsRunTest]
      split
      · exact ⟨rfl, rfl⟩
      · split
        · split
          · exact ⟨rfl, rfl⟩
          · split
            · exact ⟨rfl, rfl⟩
            · exact ⟨rfl, rfl⟩
        · exact ⟨rfl, rfl⟩

/-- C1 (amended): for every constructed probe and every outcome of its
external calls, `run()` returns without an uncaught exception; every fault
of an external call is converted into a single failure record, carrying the
classifying message for the HTTP, Host-Reachability and DNS probes, and no
message for the TCP probe. -/
theorem run_never_raises :
    (∀ r : ProbeRun, isOkB (runProbe r).outcome = true) ∧
    (∀ (p : MonitorHTTP) (s : String → String → Bool) (e : String),
      runProbe (.http p s (.reqExn e)) =
        ⟨[.fail (some ("Requests exception while opening URL: " ++ e))], .ok false⟩) ∧
    (∀ (p : MonitorHTTP) (s : String → String → Bool) (e : String),
      runProbe (.http p s (.otherExn e)) =
        ⟨[.fail (some ("Exception while trying to open url: " ++ e))], .ok false⟩) ∧
    (∀ p : MonitorTCP, runProbe (.tcp p false) = ⟨[.fail none], .ok false⟩) ∧
    (∀ (p : MonitorHost) (e : String), ∃ m : String,
      runProbe (.host p (.error e)) = ⟨[.fail (some m)], .ok false⟩) ∧
    (∀ (p : MonitorDNS) (e : String),
      runProbe (.dns p (.error e)) =
        ⟨[.fail (some ("Exception while executing dig: " ++ e))], .ok false⟩) := by
  refine ⟨fun r => (run_shape r).2, fun p s e => rfl, fun p s e => rfl,
    fun p => rfl, ?_, fun p e => rfl⟩
  intro p e
  cases hf : pyFmt p.ping_command.data p.host false with
  | error e2 =>
    refine ⟨e2, ?_⟩
    simp [runProbe, hostRunTest, hostTryBody, hf]
  | ok cmd =>
    refine ⟨e, ?_⟩
    simp [runProbe, hostRunTest, hostTryBody, hf]

/-- C1 counterexample: a TCP connect fault is recorded as a failure with
*no* message, refuting the claim that every fault yields a failure result
with a descriptive message. -/
theorem tcp_failure_message_absent :
    (runProbe (.tcp ⟨"m", "example.com", 80⟩ false)).events = [.fail none] ∧
      ∀ m : String,
        (runProbe (.tcp ⟨"m", "example.com", 80⟩ false)).events ≠
          [.fail (some m)] := by
  constructor
  · rfl
  · intro m h
    simp [runProbe, tcpRunTest] at h

/-- C2: every `run()` of every probe of the family makes exactly one call
to the Result Recorder — one `record_success` or one `record_fail`, never
zero, never two. -/
theorem run_records_exactly_once (r : ProbeRun) :
    (runProbe r).events.length = 1 :=
  (run_shape r).1

/-! ## Substring occurrence helpers -/

theorem strAppendAssoc (a b c : String) : (a ++ b) ++ c = a ++ (b ++ c) := by
  cases a with
  | mk la =>
    cases b with
    | mk lb =>
      cases c with
      | mk lc =>
        show String.mk ((la ++ lb) ++ lc) = String.mk (la ++ (lb ++ lc))
        rw [List.append_assoc]

theorem strHas_append_left (a : List Char) {m l : List Char}
    (h : strHas m l = true) : strHas m (a ++ l) = true := by
  induction a with
  | nil => exact h
  | cons c cs ih => exact strHas_cons c ih

theorem beginsWith_self (l : List Char) : beginsWith l l = true := by
  induction l with
  | nil => rfl
  | cons c cs ih => simp [beginsWith, ih]

theorem strHasS_self (m : String) : strHasS m m = true :=
  strHas_of_beginsWith (beginsWith_self m.data)

theorem strHasS_here (m b : String) : strHasS m (m ++ b) = true := by
  unfold strHasS
  rw [strDataAppend]
  exact strHas_of_beginsWith (beginsWith_refl_append m.data b.data)

theorem strHasS_of_right (a : String) {m s : String}
    (h : strHasS m s = true) : strHasS m (a ++ s) = true := by
  unfold strHasS at h ⊢
  rw [strDataAppend]
  exact strHas_append_left a.data h

/-- C3: for every HTTP probe, regex engine and received response, a
disallowed status records a failure naming the status, the reason and the
allowed set; an allowed status with no configured regex records a success
naming the status and the elapsed time; with a configured regex, a body
match records that success and a non-match records a failure naming the
status, the reason and the pattern. -/
theorem http_response_classification (p : MonitorHTTP)
    (s : String → String → Bool) (r : HttpResponse) :
    (r.status ∉ p.allowed_codes →
      runProbe (.http p s (.resp r)) =
        ⟨[.fail (some (httpStatusFailMsg r.status r.reason p.allowed_codes))],
          .ok false⟩ ∧
      strHasS (pyIntStr r.status)
        (httpStatusFailMsg r.status r.reason p.allowed_codes) = true ∧
      strHasS r.reason
        (httpStatusFailMsg r.status r.reason p.allowed_codes) = true ∧
      strHasS (pyIntListRepr p.allowed_codes)
        (httpStatusFailMsg r.status r.reason p.allowed_codes) = true) ∧
    (r.status ∈ p.allowed_codes → p.regexpC = none →
      runProbe (.http p s (.resp r)) =
        ⟨[.success (some (httpOkMsg r.status r.load_secs r.load_micros))],
          .ok true⟩ ∧
      strHasS (pyIntStr r.status)
        (httpOkMsg r.status r.load_secs r.load_micros) = true) ∧
    (∀ pat, r.status ∈ p.allowed_codes → p.regexpC = some pat →
      (s pat r.body = true →
        runProbe (.http p s (.resp r)) =
          ⟨[.success (some (httpOkMsg r.status r.load_secs r.load_micros))],
            .ok true⟩) ∧
      (s pat r.body = false →
        runProbe (.http p s (.resp r)) =
          ⟨[.fail (some (httpRegexFailMsg r.status r.reason p.regexp_text))],
            .ok false⟩ ∧
        strHasS p.regexp_text
          (httpRegexFailMsg r.status r.reason p.regexp_text) = true)) := by
  refine ⟨?_, ?_, ?_⟩
  · intro hc
    refine ⟨by simp [runProbe, httpRunTest, hc], ?_, ?_, ?_⟩
    all_goals
      unfold httpStatusFailMsg
      simp only [strAppendAssoc]
      repeat first
        | exact strHasS_self _
        | exact strHasS_here _ _
        | apply strHasS_of_right
  · intro hc hre
    refine ⟨by simp [runProbe, httpRunTest, hc, hre], ?_⟩
    unfold httpOkMsg
    simp only [strAppendAssoc]
    repeat first
      | exact strHasS_self _
      | exact strHasS_here _ _
      | apply strHasS_of_right
  · intro pat hc hre
    constructor
    · intro hs
      simp [runProbe, httpRunTest, hc, hre, hs]
    · intro hs
      refine ⟨by simp [runProbe, httpRunTest, hc, hre, hs], ?_⟩
      unfold httpRegexFailMsg
      simp only [strAppendAssoc]
      repeat first
        | exact strHasS_self _
        | exact strHasS_here _ _
        | apply strHasS_of_right

/-- Witness for C3: all four branches at concrete probes and responses
(allowed set `[200]`, a 404 response, a 200 response, and a configured
body regex that matches respectively fails to match). -/
theorem http_response_classification_witness :
    (runProbe (.http ⟨"m", "http://x", none, "", [200], none, none, true, 5,
        none, none⟩ strHasS (.resp ⟨404, "Not Found", "", 0, 123456⟩)) =
      ⟨[.fail (some (httpStatusFailMsg 404 "Not Found" [200]))], .ok false⟩ ∧
      strHasS (pyIntStr 404) (httpStatusFailMsg 404 "Not Found" [200]) = true) ∧
    (runProbe (.http ⟨"m", "http://x", none, "", [200], none, none, true, 5,
        none, none⟩ strHasS (.resp ⟨200, "OK", "", 1, 500000⟩)) =
      ⟨[.success (some (httpOkMsg 200 1 500000))], .ok true⟩) ∧
    (runProbe (.http ⟨"m", "http://x", some "OK", "OK", [200], none, none,
        true, 5, none, none⟩ strHasS (.resp ⟨200, "OK", "page OK", 1, 500000⟩)) =
      ⟨[.success (some (httpOkMsg 200 1 500000))], .ok true⟩) ∧
    (runProbe (.http ⟨"m", "http://x", some "NOPE", "NOPE", [200], none, none,
        true, 5, none, none⟩ strHasS (.resp ⟨200, "OK", "page", 1, 500000⟩)) =
      ⟨[.fail (some (httpRegexFailMsg 200 "OK" "NOPE"))], .ok false⟩) := by
  refine ⟨⟨?_, ?_⟩, ?_, ?_, ?_⟩
  · exact ((http_response_classification
      ⟨"m", "http://x", none, "", [200], none, none, true, 5, none, none⟩
      strHasS ⟨404, "Not Found", "", 0, 123456⟩).1 (by decide)).1
  · exact ((http_response_classification
      ⟨"m", "http://x", none, "", [200], none, none, true, 5, none, none⟩
      strHasS ⟨404, "Not Found", "", 0, 123456⟩).1 (by decide)).2.1
  · exact ((http_response_classification
      ⟨"m", "http://x", none, "", [200], none, none, true, 5, none, none⟩
      strHasS ⟨200, "OK", "", 1, 500000⟩).2.1 (by decide) rfl).1
  · exact ((http_response_classification
      ⟨"m", "http://x", some "OK", "OK", [200], none, none, true, 5, none, none⟩
      strHasS ⟨200, "OK", "page OK", 1, 500000⟩).2.2 "OK" (by decide) rfl).1
      (by decide)
  · exact (((http_response_classification
      ⟨"m", "http://x", some "NOPE", "NOPE", [200], none, none, true, 5, none,
        none⟩
      strHasS ⟨200, "OK", "page", 1, 500000⟩).2.2 "NOPE" (by decide) rfl).2
      (by decide)).1

/-- C4 (code bug evidence): on a Linux-constructed probe, a subprocess
output whose bytes contain both a reply line and a time line yields a bare
success with *no* message. Under Python 3, `str(output)` is the bytes
`repr`, a single line in which the reply pattern matches first, so the time
pattern is never consulted and the captured round-trip time is never
reported. -/
theorem host_multiline_time_lost :
    (hostInit "linux" "ping1" [("host", "1.2.3.4")]).map
        (fun p => hostRunTest p (.ok
          "64 bytes from 1.2.3.4: icmp_seq=1 ttl=64 time=2.5 ms\nround-trip min/avg/max/stddev = 2.5/2.5/2.5/0.0 ms")) =
      .ok ⟨[.success none], .ok true⟩ := by
  decide

/-- C5: classification of a DNS `run_test` on a successful subprocess call:
an output that strips to empty fails naming the record; a set (non-empty)
`desired_val` differing from the stripped output fails naming both values;
a matching `desired_val`, or no `desired_val`, succeeds with no message. -/
theorem dns_run_classification (p : MonitorDNS) (raw : String) :
    (pyStrip raw = "" →
      runProbe (.dns p (.ok raw)) =
        ⟨[.fail (some ("failed to resolve " ++ p.path))], .ok false⟩ ∧
      strHasS p.path ("failed to resolve " ++ p.path) = true) ∧
    (∀ d, p.desired_val = some d → d ≠ "" → pyStrip raw ≠ "" →
      pyStrip raw ≠ d →
      runProbe (.dns p (.ok raw)) =
        ⟨[.fail (some ("resolved DNS record is unexpected: " ++ d ++ " != "
          ++ pyStrip raw))], .ok false⟩ ∧
      strHasS d ("resolved DNS record is unexpected: " ++ d ++ " != "
        ++ pyStrip raw) = true ∧
      strHasS (pyStrip raw) ("resolved DNS record is unexpected: " ++ d
        ++ " != " ++ pyStrip raw) = true) ∧
    (∀ d, p.desired_val = some d → d ≠ "" → pyStrip raw ≠ "" →
      pyStrip raw = d →
      runProbe (.dns p (.ok raw)) = ⟨[.success none], .ok true⟩) ∧
    (p.desired_val = none → pyStrip raw ≠ "" →
      runProbe (.dns p (.ok raw)) = ⟨[.success none], .ok true⟩) := by
  refine ⟨?_, ?_, ?_, ?_⟩
  · intro h1
    refine ⟨by simp [runProbe, dnsRunTest, h1], ?_⟩
    try simp only [strAppendAssoc]
    repeat first
      | exact strHasS_self _
      | exact strHasS_here _ _
      | apply strHasS_of_right
  · intro d hd hdne hraw hdiff
    refine ⟨by simp [runProbe, dnsRunTest, hd, hdne, hraw, hdiff], ?_, ?_⟩
    all_goals
      try simp only [strAppendAssoc]
      repeat first
        | exact strHasS_self _
        | exact strHasS_here _ _
        | apply strHasS_of_right
  · intro d hd hdne hraw heq
    simp [runProbe, dnsRunTest, hd, hdne, hraw, heq]
  · intro hd hraw
    simp [runProbe, dnsRunTest, hd, hraw]

/-- Witness for C5: the three outcomes at a concrete probe — empty output,
a mismatching output against `desired_val = "5.6.7.8"`, a matching output,
and a probe with no `desired_val`. -/
theorem dns_run_classification_witness :
    (runProbe (.dns ⟨"m", "example.com", some "5.6.7.8", none, none,
        ["dig", "example.com", "+short"]⟩ (.ok " \n")) =
      ⟨[.fail (some ("failed to resolve " ++ "example.com"))], .ok false⟩) ∧
    (runProbe (.dns ⟨"m", "example.com", some "5.6.7.8", none, none,
        ["dig", "example.com", "+short"]⟩ (.ok "1.2.3.4\n")) =
      ⟨[.fail (some ("resolved DNS record is unexpected: " ++ "5.6.7.8"
        ++ " != " ++ pyStrip "1.2.3.4\n"))], .ok false⟩) ∧
    (runProbe (.dns ⟨"m", "example.com", some "5.6.7.8", none, none,
        ["dig", "example.com", "+short"]⟩ (.ok "5.6.7.8\n")) =
      ⟨[.success none], .ok true⟩) ∧
    (runProbe (.dns ⟨"m", "example.com", none, none, none,
        ["dig", "example.com", "+short"]⟩ (.ok "1.2.3.4\n")) =
      ⟨[.success none], .ok true⟩) := by
  refine ⟨?_, ?_, ?_, ?_⟩
  · exact ((dns_run_classification ⟨"m", "example.com", some "5.6.7.8", none,
      none, ["dig", "example.com", "+short"]⟩ " \n").1 (by decide)).1
  · exact ((dns_run_classification ⟨"m", "example.com", some "5.6.7.8", none,
      none, ["dig", "example.com", "+short"]⟩ "1.2.3.4\n").2.1 "5.6.7.8" rfl
      (by decide) (by decide) (by decide)).1
  · exact (dns_run_classification ⟨"m", "example.com", some "5.6.7.8", none,
      none, ["dig", "example.com", "+short"]⟩ "5.6.7.8\n").2.2.1 "5.6.7.8" rfl
      (by decide) (by decide) (by decide)
  · exact (dns_run_classification ⟨"m", "example.com", none, none, none,
      ["dig", "example.com", "+short"]⟩ "1.2.3.4\n").2.2.2 rfl (by decide)

/-- C9: a `desired_val` configured as the empty string is falsy, so the
value comparison is skipped and any non-empty resolved output records a
success, although it differs from the configured value. -/
theorem dns_blank_desired_val_skips_comparison (p : MonitorDNS) (raw : String)
    (hd : p.desired_val = some "") (hraw : pyStrip raw ≠ "") :
    runProbe (.dns p (.ok raw)) = ⟨[.success none], .ok true⟩ ∧
      pyStrip raw ≠ "" := by
  refine ⟨?_, hraw⟩
  simp [runProbe, dnsRunTest, hd, hraw]

/-- Witness for C9: a probe constructed from a config carrying
`desired_val = ""` succeeds on the resolved output `"1.2.3.4"`. -/
theorem dns_blank_desired_val_skips_comparison_witness :
    runProbe (.dns ⟨"m", "example.com", some "", none, none,
        ["dig", "example.com", "+short"]⟩ (.ok "1.2.3.4\n")) =
      ⟨[.success none], .ok true⟩ :=
  (dns_blank_desired_val_skips_comparison ⟨"m", "example.com", some "", none,
    none, ["dig", "example.com", "+short"]⟩ "1.2.3.4\n" rfl (by decide)).1

/-- C6 (amended): a required key that is *absent* raises
`RuntimeError("Required configuration fields missing")` for every probe
type. A required value that is present but *empty* raises
`"missing hostname"` for the TCP and Host probes and the required-fields
error for the DNS record — but an HTTP probe with an empty `url` constructs
successfully. -/
theorem config_required_validation :
    (∀ (n : String) (cfg : PyConfig), cfg.find? "url" = none →
      httpInit n cfg = .error "Required configuration fields missing") ∧
    (∀ (n : String) (cfg : PyConfig), cfg.find? "host" = none →
      tcpInit n cfg = .error "Required configuration fields missing") ∧
    (∀ (n : String) (cfg : PyConfig), cfg.find? "port" = none →
      tcpInit n cfg = .error "Required configuration fields missing") ∧
    (∀ (pf n : String) (cfg : PyConfig), cfg.find? "host" = none →
      hostInit pf n cfg = .error "Required configuration fields missing") ∧
    (∀ (n : String) (cfg : PyConfig), cfg.find? "record" = none →
      dnsInit n cfg = .error "Required configuration fields missing") ∧
    (∀ (n : String) (cfg : PyConfig) (v : String) (k : Int),
      cfg.find? "host" = some "" → cfg.find? "port" = some v →
      pyInt? v = some k → tcpInit n cfg = .error "missing hostname") ∧
    (∀ (pf n : String) (cfg : PyConfig), cfg.find? "host" = some "" →
      hostInit pf n cfg = .error "missing hostname") ∧
    (∀ (n : String) (cfg : PyConfig), cfg.find? "record" = some "" →
      dnsInit n cfg = .error "Required configuration fields missing") ∧
    (∀ n : String, ∃ p : MonitorHTTP,
      httpInit n [("url", "")] = .ok p ∧ p.url = "") := by
  refine ⟨?_, ?_, ?_, ?_, ?_, ?_, ?_, ?_, ?_⟩
  · intro n cfg h; simp [httpInit, h]
  · intro n cfg h; simp [tcpInit, h]
  · intro n cfg h
    cases hh : cfg.find? "host" <;> simp [tcpInit, hh, h]
  · intro pf n cfg h; simp [hostInit, h]
  · intro n cfg h; simp [dnsInit, h]
  · intro n cfg v k h1 h2 h3; simp [tcpInit, h1, h2, h3]
  · intro pf n cfg h; simp [hostInit, h]
  · intro n cfg h; simp [dnsInit, h]
  · intro n
    exact ⟨⟨n, "", none, "", [200], none, none, true, 5, none, none⟩, rfl, rfl⟩

/-- Witness for C6: each validation path at a concrete configuration. -/
theorem config_required_validation_witness :
    httpInit "m" [] = .error "Required configuration fields missing" ∧
    tcpInit "m" [("port", "80")] = .error "Required configuration fields missing" ∧
    tcpInit "m" [("host", "h")] = .error "Required configuration fields missing" ∧
    hostInit "linux" "m" [] = .error "Required configuration fields missing" ∧
    dnsInit "m" [] = .error "Required configuration fields missing" ∧
    tcpInit "m" [("host", ""), ("port", "80")] = .error "missing hostname" ∧
    hostInit "linux" "m" [("host", "")] = .error "missing hostname" ∧
    dnsInit "m" [("record", "")] = .error "Required configuration fields missing" :=
  ⟨config_required_validation.1 "m" [] rfl,
    config_required_validation.2.1 "m" [("port", "80")] rfl,
    config_required_validation.2.2.1 "m" [("host", "h")] rfl,
    config_required_validation.2.2.2.1 "linux" "m" [] rfl,
    config_required_validation.2.2.2.2.1 "m" [] rfl,
    config_required_validation.2.2.2.2.2.1 "m" [("host", ""), ("port", "80")]
      "80" 80 rfl rfl (by decide),
    config_required_validation.2.2.2.2.2.2.1 "linux" "m" [("host", "")] rfl,
    config_required_validation.2.2.2.2.2.2.2.1 "m" [("record", "")] rfl⟩

/-- C6 counterexample: an HTTP probe whose `url` is present but empty
constructs successfully (no error at all), refuting the claim that a
present-but-empty required key raises a configuration error. -/
theorem http_empty_url_accepted :
    httpInit "m" [("url", "")] =
      .ok ⟨"m", "", none, "", [200], none, none, true, 5, none, none⟩ := rfl

/-- C7 (code bug evidence): on an unrecognized platform the source builds
`RuntimeError("Don't know how to run ping on this platform, help!")` but
never raises it, so construction *succeeds*, returning a probe whose
command template and patterns are the empty-string class defaults. -/
theorem host_unrecognized_platform_constructs :
    hostInit "sunos5" "m" [("host", "example.com")] =
      .ok ⟨"m", "example.com", "", "", ""⟩ := rfl

/-- C8 counterexample: a DNS probe configured with a `server` and a
`record_type` has the same identity tuple as one configured with neither —
`get_params` returns `(record,)` only, so the identity does not reflect the
configured server or record type. -/
theorem dns_identity_omits_server :
    (dnsInit "a" [("record", "example.com")]).map MonitorDNS.get_params =
      .ok "example.com" ∧
    (dnsInit "b" [("record", "example.com"), ("server", "8.8.8.8"),
        ("record_type", "MX")]).map MonitorDNS.get_params =
      .ok "example.com" ∧
    (dnsInit "b" [("record", "example.com"), ("server", "8.8.8.8"),
        ("record_type", "MX")]).map MonitorDNS.server = .ok (some "8.8.8.8") ∧
    (dnsInit "b" [("record", "example.com"), ("server", "8.8.8.8"),
        ("record_type", "MX")]).map MonitorDNS.rectype = .ok (some "MX") :=
  ⟨rfl, rfl, rfl, rfl⟩

/-- C8 (amended): the identity tuple of a constructed probe is
`(host, port)` for TCP, `(url, regexp text, allowed codes)` for HTTP,
`(host,)` for Host-Reachability, and `(record,)` only for DNS — the DNS
identity does not include the configured server or record type. -/
theorem probe_identity_of_config :
    (∀ (n : String) (cfg : PyConfig) (h v : String) (k : Int) (p : MonitorTCP),
      cfg.find? "host" = some h → cfg.find? "port" = some v →
      pyInt? v = some k → tcpInit n cfg = .ok p → p.get_params = (h, k)) ∧
    (∀ (n : String) (cfg : PyConfig) (p : MonitorHTTP),
      httpInit n cfg = .ok p →
      p.get_params = (p.url, p.regexp_text, p.allowed_codes) ∧
      cfg.find? "url" = some p.url) ∧
    (∀ (pf n : String) (cfg : PyConfig) (p : MonitorHost),
      hostInit pf n cfg = .ok p →
      p.get_params = p.host ∧ cfg.find? "host" = some p.host) ∧
    (∀ (n : String) (cfg : PyConfig) (p : MonitorDNS),
      dnsInit n cfg = .ok p →
      p.get_params = p.path ∧ cfg.find? "record" = some p.path) := by
  refine ⟨?_, ?_, ?_, ?_⟩
  · intro n cfg h v k p h1 h2 h3 h4
    have hbind : (cfg.find? "port").bind pyInt? = some k := by
      rw [h2]; exact h3
    unfold tcpInit at h4
    rw [h1, hbind] at h4
    dsimp only at h4
    by_cases hhe : h = ""
    · rw [if_pos hhe] at h4; exact Except.noConfusion h4
    · rw [if_neg hhe] at h4
      by_cases hk : k ≤ 0
      · rw [if_pos hk] at h4; exact Except.noConfusion h4
      · rw [if_neg hk] at h4
        cases h4
        rfl
  · intro n cfg p h
    unfold httpInit at h
    cases hu : cfg.find? "url" with
    | none => rw [hu] at h; exact Except.noConfusion h
    | some url =>
      rw [hu] at h
      dsimp only at h
      cases hpa : parseAllowed cfg with
      | error e => rw [hpa] at h; exact Except.noConfusion h
      | ok allowed =>
        rw [hpa] at h
        dsimp only at h
        cases hto : httpTimeout cfg with
        | error e => rw [hto] at h; exact Except.noConfusion h
        | ok tmo =>
          rw [hto] at h
          dsimp only at h
          cases h
          exact ⟨rfl, rfl⟩
  · intro pf n cfg p h
    unfold hostInit at h
    cases hh : cfg.find? "host" with
    | none => rw [hh] at h; exact Except.noConfusion h
    | some host =>
      rw [hh] at h
      dsimp only at h
      by_cases hhe : host = ""
      · rw [if_pos hhe] at h; exact Except.noConfusion h
      · rw [if_neg hhe] at h
        cases h
        exact ⟨rfl, rfl⟩
  · intro n cfg p h
    unfold dnsInit at h
    cases hr : cfg.find? "record" with
    | none => rw [hr] at h; exact Except.noConfusion h
    | some path =>
      rw [hr] at h
      dsimp only at h
      by_cases hpe : path = ""
      · rw [if_pos hpe] at h; exact Except.noConfusion h
      · rw [if_neg hpe] at h
        cases h
        exact ⟨rfl, rfl⟩

/-- Witness for C8: each identity round-trip at a concrete configuration. -/
theorem probe_identity_of_config_witness :
    (⟨"m", "h", 80⟩ : MonitorTCP).get_params = ("h", (80 : Int)) ∧
    ((⟨"m", "http://x", none, "", [200], none, none, true, 5, none, none⟩ :
        MonitorHTTP).get_params = ("http://x", "", [200]) ∧
      PyConfig.find? [("url", "http://x")] "url" = some "http://x") ∧
    ((⟨"m", "h", "ping -c1 -W5 %s", "bytes from", posixTimePat⟩ :
        MonitorHost).get_params = "h" ∧
      PyConfig.find? [("host", "h")] "host" = some "h") ∧
    ((⟨"m", "r", none, none, none, ["dig", "r", "+short"]⟩ :
        MonitorDNS).get_params = "r" ∧
      PyConfig.find? [("record", "r")] "record" = some "r") :=
  ⟨probe_identity_of_config.1 "m" [("host", "h"), ("port", "80")] "h" "80" 80
      ⟨"m", "h", 80⟩ rfl rfl (by decide) rfl,
    probe_identity_of_config.2.1 "m" [("url", "http://x")]
      ⟨"m", "http://x", none, "", [200], none, none, true, 5, none, none⟩ rfl,
    probe_identity_of_config.2.2.1 "linux" "m" [("host", "h")]
      ⟨"m", "h", "ping -c1 -W5 %s", "bytes from", posixTimePat⟩ rfl,
    probe_identity_of_config.2.2.2 "m" [("record", "r")]
      ⟨"m", "r", none, none, none, ["dig", "r", "+short"]⟩ rfl⟩

theorem flatten_replicate_singleton (n : Nat) (a : Char) :
    List.flatten (List.replicate n [a]) = List.replicate n a := by
  induction n with
  | zero => rfl
  | succ k ih => simp [List.replicate_succ, ih]

/-- C10: on the Windows platform family the wait argument of the ping
command is `ping_ttl * 1000` applied to the ttl *string* — Python string
repetition — so the command embeds the ttl string repeated 1000 times (for
the default `"5"`, a 1000-character run of `'5'`), not the numeric
millisecond value `5000`. -/
theorem host_windows_wait_is_string_repetition :
    (∀ (n : String) (cfg : PyConfig) (p : MonitorHost),
      hostInit "win32" n cfg = .ok p →
      p.ping_command =
        "ping -n 1 -w " ++ pyStrMul ((cfg.find? "ping_ttl").getD "5") 1000
          ++ " %s") ∧
    (pyStrMul "5" 1000).data = List.replicate 1000 '5' ∧
    pyStrMul "5" 1000 ≠ "5000" := by
  have hdata : (pyStrMul "5" 1000).data = List.replicate 1000 '5' :=
    flatten_replicate_singleton 1000 '5'
  refine ⟨?_, hdata, ?_⟩
  · intro n cfg p h
    unfold hostInit at h
    cases hh : cfg.find? "host" with
    | none => rw [hh] at h; exact Except.noConfusion h
    | some host =>
      rw [hh] at h
      dsimp only at h
      by_cases hhe : host = ""
      · rw [if_pos hhe] at h; exact Except.noConfusion h
      · rw [if_neg hhe] at h
        cases h
        rfl
  · intro hcontra
    have h2 := congrArg String.data hcontra
    rw [hdata] at h2
    have h3 := congrArg List.length h2
    rw [List.length_replicate] at h3
    exact absurd h3 (by decide)

/-- Witness for C10: the probe constructed on `win32` with the default ttl
carries the 1000-fold repetition in its command template. -/
theorem host_windows_wait_is_string_repetition_witness :
    (⟨"m", "h", "ping -n 1 -w " ++ pyStrMul "5" 1000 ++ " %s", "Reply from ",
        winTimePat⟩ : MonitorHost).ping_command =
      "ping -n 1 -w " ++ pyStrMul "5" 1000 ++ " %s" :=
  host_windows_wait_is_string_repetition.1 "m" [("host", "h")]
    ⟨"m", "h", "ping -n 1 -w " ++ pyStrMul "5" 1000 ++ " %s", "Reply from ",
      winTimePat⟩ rfl
